import Mathlib

/- Shallow embedding of the runner configuration resolution and generation
engine of the cdk-autoscaling-gitlab-runner repository: the
GitlabRunnerAutoscalingJobRunner construct (src/runner/job-runner.ts) and
the GitlabRunnerStack construct (manager bootstrap document, service
directives and the cache bucket lifecycle rule). Machine integers are
embedded as Int, option-typed TypeScript values as Option, and the
non-deterministic sources of the unique-name generator are passed as
explicit arguments. -/

/-- Severity of a CDK annotation diagnostic (Annotations.addError adds an
error-severity diagnostic; addWarning a warning-severity one). -/
inductive Severity where
  | error
  | warning
  deriving DecidableEq

/-- A configuration-time diagnostic: a severity plus a human-readable
message, as collected by Annotations on the construct. -/
structure Diagnostic where
  severity : Severity
  message : String
  deriving DecidableEq

/-- Modelled from the spec: the docker-machine machineOptions block of
RunnerConfiguration. The file src/runner-configuration imported by
src/runner/job-runner.ts is not under src/; the embedded constructor only
consults the keypairName field of this block. -/
structure MachineOptionsConfig where
  keypairName : Option String
  deriving DecidableEq

/-- Modelled from the spec: the machine block of RunnerConfiguration,
holding the driver machine options. -/
structure MachineConfig where
  machineOptions : Option MachineOptionsConfig
  deriving DecidableEq

/-- Modelled from the spec: the RunnerConfiguration schema (its file is not
under src/). name and token are the two fields the constructor overrides;
machine carries the keypairName option that the cross-field check reads;
the remaining fields are representative optional fields of the schema that
the object spread carries over unchanged. -/
structure RunnerConfiguration where
  name : Option String
  token : Option String
  url : Option String
  executor : Option String
  environment : Option (List String)
  docker : Option String
  machine : Option MachineConfig
  cache : Option String
  deriving DecidableEq

/-- The JavaScript truth test of
!props.configuration.machine?.machineOptions?.keypairName: true when the
optional chain breaks off (machine or machineOptions or keypairName
undefined) and also when keypairName is the empty string, the only falsy
string. -/
def keypairNameFalsy (c : RunnerConfiguration) : Bool :=
  match c.machine with
  | none => true
  | some m =>
    match m.machineOptions with
    | none => true
    | some mo =>
      match mo.keypairName with
      | none => true
      | some s => s == ""

/-- The aws-cdk-lib InstanceClass values the embedding needs (the source
names InstanceClass.T3 for the default). -/
inductive InstanceClass where
  | t2
  | t3
  | m5
  deriving DecidableEq

/-- The aws-cdk-lib InstanceSize values the embedding needs (the source
names InstanceSize.MICRO for the default). -/
inductive InstanceSize where
  | micro
  | small
  | large
  deriving DecidableEq

/-- An EC2 instance type: a combination of a class and a size. -/
structure InstanceType where
  instanceClass : InstanceClass
  instanceSize : InstanceSize
  deriving DecidableEq

/-- InstanceType.of(instanceClass, instanceSize) of aws-cdk-lib. -/
def InstanceType.of (c : InstanceClass) (s : InstanceSize) : InstanceType :=
  ⟨c, s⟩

/-- The arguments the constructor passes to new LookupMachineImage: the name
pattern, the owners and the filter map. The mostRecent field is modelled
from the spec: LookupMachineImage (aws-cdk-lib, outside this repository)
selects the most recent image when several match the filter. -/
structure MachineImageLookup where
  name : String
  owners : List String
  filters : List (String × List String)
  mostRecent : Bool
  deriving DecidableEq

/-- An IMachineImage value: either one supplied by the caller through props,
or the MachineImage.genericLinux image built from the lookup description. -/
inductive MachineImage where
  | supplied (id : String)
  | genericLinuxLookup (l : MachineImageLookup)
  deriving DecidableEq

/-- The fixed lookup description of lines 83 to 95 of
src/runner/job-runner.ts: the Ubuntu 20.04 focal image pattern, the
Canonical owner id, and the filters for architecture, image type, state,
root device type and virtualization type. -/
def defaultMachineImageLookup : MachineImageLookup :=
  { name := "ubuntu/images/hvm-ssd/ubuntu-focal-20.04-amd64-server-*"
    owners := ["099720109477"]
    filters :=
      [ ("architecture", ["x86_64"])
      , ("image-type", ["machine"])
      , ("state", ["available"])
      , ("root-device-type", ["ebs"])
      , ("virtualization-type", ["hvm"]) ]
    mostRecent := true }

/-- The SSM string parameter passed as props.token; stringValue is the value
the secret reference resolves to. -/
structure StringParameter where
  stringValue : String
  deriving DecidableEq

/-- GitlabRunnerAutoscalingJobRunnerProps. props.token is declared required
in TypeScript but is read through the optional chain
props.token?.stringValue, so it is embedded as an Option; keyPair is the
optional EC2 key pair secret, embedded by its identifier. The role prop
only feeds cloud resource declarations and is omitted. -/
structure GitlabRunnerAutoscalingJobRunnerProps where
  token : Option StringParameter
  configuration : RunnerConfiguration
  instanceType : Option InstanceType
  machineImage : Option MachineImage
  keyPair : Option String
  deriving DecidableEq

/-- GitlabRunnerAutoscalingJobRunner.generateUniqueName, with the two
non-deterministic sources, new Date().getTime() and
Math.floor(Math.random() * 100000), passed as explicit arguments. -/
def generateUniqueName (timeMs rand : Nat) : String :=
  "gitlab-runner-" ++ toString timeMs ++ toString rand

/-- The message of the single Annotations.addError call of the constructor
(lines 110 to 114 of src/runner/job-runner.ts). -/
def keyPairErrorMessage : String :=
  "If runner.keyPair is configured, then props.configuration.machine.machineOptions.keypairName must also be set."

/-- The observable result of the GitlabRunnerAutoscalingJobRunner
constructor: the resolved configuration, the resolved instance type and
machine image, the stored key pair and the diagnostics added through
Annotations. -/
structure JobRunner where
  configuration : RunnerConfiguration
  instanceType : InstanceType
  machineImage : MachineImage
  keyPair : Option String
  annotations : List Diagnostic
  deriving DecidableEq

/-- The GitlabRunnerAutoscalingJobRunner constructor body (lines 73 to 118
of src/runner/job-runner.ts). It resolves the configuration by spreading
props.configuration and overriding token with
props.configuration.token ?? props.token?.stringValue and name with
props.configuration.name ?? generateUniqueName(); it defaults instanceType
with || to InstanceType.of(T3, MICRO) and machineImage with || to the
generic Linux focal lookup; and it adds exactly one error annotation when
props.keyPair is set while the keypairName machine option is falsy. The
role and instance profile are cloud resource declarations without bearing
on the claims. The constructor is a total function: no code path throws. -/
def constructJobRunner (props : GitlabRunnerAutoscalingJobRunnerProps)
    (timeMs rand : Nat) : JobRunner :=
  { configuration :=
      { props.configuration with
        token :=
          match props.configuration.token with
          | some t => some t
          | none => Option.map StringParameter.stringValue props.token
        name :=
          match props.configuration.name with
          | some n => some n
          | none => some (generateUniqueName timeMs rand) }
    instanceType := props.instanceType.getD (InstanceType.of InstanceClass.t3 InstanceSize.micro)
    machineImage :=
      props.machineImage.getD (MachineImage.genericLinuxLookup defaultMachineImageLookup)
    keyPair := props.keyPair
    annotations :=
      if props.keyPair.isSome && keypairNameFalsy props.configuration then
        [⟨Severity.error, keyPairErrorMessage⟩]
      else [] }

/-- GitlabRunnerStackProps together with the stack context values the
bootstrap template reads (stackName, region, urlSuffix, vpc.vpcId and
runnersInstanceProfile.logicalId). Fields typed any in the source that are
only interpolated into the template text are embedded as the interpolated
string; cacheExpirationInDays is typed number in the source and is embedded
as Int; gitlabRunnerSpotInstance is used as a boolean condition. -/
structure GitlabRunnerStackProps where
  cacheBucketName : String
  cacheExpirationInDays : Int
  availabilityZone : String
  vpcSubnet : String
  gitlabUrl : String
  gitlabToken : String
  gitlabDockerImage : String
  gitlabMaxBuilds : String
  gitlabMaxConcurrentBuilds : String
  gitlabIdleCount : String
  gitlabIdleTime : String
  gitlabOffPeakTimezone : String
  gitlabOffPeakIdleCount : String
  gitlabOffPeakIdleTime : String
  gitlabCheckInterval : String
  gitlabRunnerSpotInstance : Bool
  gitlabRunnerSpotInstancePrice : String
  gitlabRunnerInstanceType : String
  stackName : String
  region : String
  urlSuffix : String
  vpcId : String
  runnersInstanceProfileLogicalId : String
  deriving DecidableEq

/-- The first conditional slot inside the MachineOptions list of the
template (lines 273 to 277 of the stack source): the spot request directive
when spot instances are enabled, the empty string otherwise. -/
def spotRequestSlot (p : GitlabRunnerStackProps) : String :=
  if p.gitlabRunnerSpotInstance then "amazonec2-request-spot-instance=true" else ""

/-- The second conditional slot inside the MachineOptions list of the
template (lines 278 to 282 of the stack source): the spot price directive
when spot instances are enabled, the empty string otherwise. -/
def spotPriceSlot (p : GitlabRunnerStackProps) : String :=
  if p.gitlabRunnerSpotInstance then
    "amazonec2-spot-price=" ++ p.gitlabRunnerSpotInstancePrice
  else ""

/-- The eight unconditional entries of the MachineOptions list, in template
order, each as the rendered option text between its quotes. -/
def machineOptionsFixedEntries (p : GitlabRunnerStackProps) : List String :=
  [ "amazonec2-instance-type=" ++ p.gitlabRunnerInstanceType
  , "amazonec2-region=" ++ p.region
  , "amazonec2-vpc-id=" ++ p.vpcId
  , "amazonec2-zone=" ++ p.availabilityZone
  , "amazonec2-subnet-id=" ++ p.vpcSubnet
  , "amazonec2-security-group=" ++ (p.stackName ++ "-RunnersSecurityGroup")
  , "amazonec2-use-private-address=true"
  , "amazonec2-iam-instance-profile=" ++ p.runnersInstanceProfileLogicalId ]

/-- The rendered machine-options list: the eight fixed entries followed by
the two conditional slots, exactly as the template emits them. -/
def machineOptionsItems (p : GitlabRunnerStackProps) : List String :=
  machineOptionsFixedEntries p ++ [spotRequestSlot p, spotPriceSlot p]

/-- Wraps an option entry in the double quotes the template puts around
each unconditional entry. -/
def quoteEntry (s : String) : String :=
  "\"" ++ s ++ "\""

/-- The MachineOptions block of the template: the eight quoted entries
separated by commas, then the two conditional slots, which the template
emits bare (no quotes and no commas), so that an empty slot contributes
only its surrounding whitespace. Leading indentation of the template is
normalised to single newlines. -/
def machineOptionsBlock (p : GitlabRunnerStackProps) : String :=
  "MachineOptions = [\n"
    ++ String.intercalate ",\n" (List.map quoteEntry (machineOptionsFixedEntries p))
    ++ "\n" ++ spotRequestSlot p ++ " \n" ++ spotPriceSlot p ++ "\n]"

/-- The machine-options block as it reads when spot instances are disabled:
the eight fixed entries only, the two slots reduced to their surrounding
whitespace; no directive text, no empty and no false entry. -/
def machineOptionsBlockNoSpot (p : GitlabRunnerStackProps) : String :=
  "MachineOptions = [\n"
    ++ String.intercalate ",\n" (List.map quoteEntry (machineOptionsFixedEntries p))
    ++ "\n" ++ " \n" ++ "\n]"

/-- The fixed OffPeakPeriods value of the template (line 285 of the stack
source): a two-entry cron-like period list, weekday hours 0-8 and 18-23
Monday to Friday, and all day Saturday and Sunday. -/
def offPeakPeriodsList : List String :=
  ["* * 0-8,18-23 * * mon-fri *", "* * * * * sat,sun *"]

/-- The OffPeakPeriods line of the template, rendered from the fixed
period list. -/
def offPeakPeriodsLine : String :=
  "OffPeakPeriods = [" ++ String.intercalate ", " (List.map quoteEntry offPeakPeriodsList) ++ "]"

/-- The four OffPeak lines of the runners.machine block, in template order
(lines 284 to 287 of the stack source): the timezone, the fixed period
list, the off-peak idle count and the off-peak idle time. -/
def offPeakSection (p : GitlabRunnerStackProps) : String :=
  "OffPeakTimezone = \"" ++ p.gitlabOffPeakTimezone ++ "\"\n"
    ++ offPeakPeriodsLine ++ "\n"
    ++ "OffPeakIdleCount = " ++ p.gitlabOffPeakIdleCount ++ "\n"
    ++ "OffPeakIdleTime = " ++ p.gitlabOffPeakIdleTime

/-- The global concurrency line of the template (line 229 of the stack
source); the source renders it from gitlabMaxBuilds, not from
gitlabMaxConcurrentBuilds. -/
def concurrentLine (p : GitlabRunnerStackProps) : String :=
  "concurrent = " ++ p.gitlabMaxBuilds

/-- The per-runner MaxBuilds line of the template (line 257 of the stack
source), rendered from gitlabMaxBuilds. -/
def maxBuildsLine (p : GitlabRunnerStackProps) : String :=
  "MaxBuilds = " ++ p.gitlabMaxBuilds

/-- The runners.machine block of the template (lines 254 to 287 of the
stack source): idle policy, machine driver and name, the machine-options
block, then the off-peak section. -/
def runnersMachineBlock (p : GitlabRunnerStackProps) : String :=
  "[runners.machine]\n"
    ++ "IdleCount = " ++ p.gitlabIdleCount ++ "\n"
    ++ "IdleTime = " ++ p.gitlabIdleTime ++ "\n"
    ++ maxBuildsLine p ++ "\n"
    ++ "MachineDriver = \"amazonec2\"\n"
    ++ "MachineName = \"gitlab-docker-machine-%s\"\n"
    ++ machineOptionsBlock p ++ "\n"
    ++ offPeakSection p

/-- The bootstrap configuration document before its off-peak tail: the
global section, the runner definition with docker and cache sub-blocks, and
the runners.machine block up to and including the machine-options block. -/
def configTomlPreOffPeak (p : GitlabRunnerStackProps) : String :=
  concurrentLine p ++ "\n"
    ++ "check_interval = " ++ p.gitlabCheckInterval ++ "\n"
    ++ "[[runners]]\n"
    ++ "name = \"" ++ p.stackName ++ "\"\n"
    ++ "url = \"" ++ p.gitlabUrl ++ "\"\n"
    ++ "token = \"" ++ p.gitlabToken ++ "\"\n"
    ++ "executor = \"docker+machine\"\n"
    ++ "environment = [\n"
    ++ "\"DOCKER_DRIVER=overlay2\",\n"
    ++ "\"DOCKER_TLS_CERTDIR=/certs\"\n"
    ++ "]\n"
    ++ "[runners.docker]\n"
    ++ "tls_verify = false\n"
    ++ "image = \"" ++ p.gitlabDockerImage ++ "\"\n"
    ++ "privileged = true\n"
    ++ "disable_cache = false\n"
    ++ "volumes = [\"/certs/client\", \"/cache\"]\n"
    ++ "shm_size = 0\n"
    ++ "[runners.cache]\n"
    ++ "Type = \"s3\"\n"
    ++ "Shared = true\n"
    ++ "[runners.cache.s3]\n"
    ++ "ServerAddress = \"s3." ++ p.urlSuffix ++ "\"\n"
    ++ "BucketName = \"" ++ p.cacheBucketName ++ "\"\n"
    ++ "BucketLocation = \"" ++ p.region ++ "\"\n"
    ++ "[runners.machine]\n"
    ++ "IdleCount = " ++ p.gitlabIdleCount ++ "\n"
    ++ "IdleTime = " ++ p.gitlabIdleTime ++ "\n"
    ++ maxBuildsLine p ++ "\n"
    ++ "MachineDriver = \"amazonec2\"\n"
    ++ "MachineName = \"gitlab-docker-machine-%s\"\n"
    ++ machineOptionsBlock p ++ "\n"

/-- The bootstrap configuration document /etc/gitlab-runner/config.toml as
rendered by InitFile.fromString in the GitlabRunnerStack constructor
(template literal, lines 228 to 288 of the stack source), with the leading
indentation of the template normalised to single newlines between lines. -/
def configToml (p : GitlabRunnerStackProps) : String :=
  configTomlPreOffPeak p ++ offPeakSection p

/-- A bucket lifecycle rule as passed to the Bucket construct: the enabled
flag and the expiration date, embedded as days on an absolute day scale. -/
structure LifecycleRule where
  enabled : Bool
  expirationDate : Int
  deriving DecidableEq

/-- Line 369 of the stack source:
const lifeCycleRuleEnabled = props.cacheExpirationInDays === 0.
The comment directly above it in the source reads: Enabled if not 0. If 0,
cache does not expire. -/
def lifeCycleRuleEnabled (cacheExpirationInDays : Int) : Bool :=
  cacheExpirationInDays == 0

/-- The single lifecycle rule of the GitlabRunnerCacheBucket (lines 363 to
381 of the stack source): enabled per lifeCycleRuleEnabled and expiring
cacheExpirationInDays after today; the setDate(getDate() + n) idiom of the
source adds n days to the current date. -/
def cacheBucketLifecycleRules (p : GitlabRunnerStackProps) (today : Int) : List LifecycleRule :=
  [{ enabled := lifeCycleRuleEnabled p.cacheExpirationInDays
     expirationDate := today + p.cacheExpirationInDays }]

/-- The services the bootstrap metadata enables with ensureRunning through
InitService.enable: cfn-hup in the packages configset, gitlab-runner and
rsyslog in the config configset. -/
def serviceDirectives : List String :=
  ["cfn-hup", "gitlab-runner", "rsyslog"]

/-- Modelled from the spec: the fail-fast gate of the Artifact Generator.
The pipeline that connects the validator diagnostics to the rendering is
not under src/ (the given stack renders unconditionally and the validator
lives in the separate job-runner construct), so the gate is taken from the
spec: generation refuses to run when any error-severity diagnostic exists,
and otherwise emits the bootstrap document and the service directives
rendered by the stack code embedded above. -/
def generateArtifacts (diags : List Diagnostic) (p : GitlabRunnerStackProps) :
    Option (String × List String) :=
  if diags.any (fun d => d.severity == Severity.error) then none
  else some (configToml p, serviceDirectives)

/-- A concrete stack props value used by witnesses and counterexamples. -/
def sampleStackProps : GitlabRunnerStackProps :=
  { cacheBucketName := "runner-cache"
    cacheExpirationInDays := 30
    availabilityZone := "a"
    vpcSubnet := "subnet-0123"
    gitlabUrl := "https://gitlab.com"
    gitlabToken := "glrt-sample"
    gitlabDockerImage := "docker:19.03.12"
    gitlabMaxBuilds := "10"
    gitlabMaxConcurrentBuilds := "5"
    gitlabIdleCount := "2"
    gitlabIdleTime := "600"
    gitlabOffPeakTimezone := "UTC"
    gitlabOffPeakIdleCount := "0"
    gitlabOffPeakIdleTime := "300"
    gitlabCheckInterval := "0"
    gitlabRunnerSpotInstance := true
    gitlabRunnerSpotInstancePrice := "0.08"
    gitlabRunnerInstanceType := "t3.micro"
    stackName := "gitlab-runner-stack"
    region := "us-east-1"
    urlSuffix := "amazonaws.com"
    vpcId := "vpc-0123"
    runnersInstanceProfileLogicalId := "RunnersInstanceProfile" }

/-- The sample stack props with spot instances disabled. -/
def sampleStackPropsNoSpot : GitlabRunnerStackProps :=
  { sampleStackProps with gitlabRunnerSpotInstance := false }

/-- The sample stack props with only the off-peak timezone changed. -/
def sampleStackPropsBerlinTz : GitlabRunnerStackProps :=
  { sampleStackProps with gitlabOffPeakTimezone := "Europe/Berlin" }

/-- The sample stack props with a zero cache expiration day count. -/
def sampleStackPropsNoExpiry : GitlabRunnerStackProps :=
  { sampleStackProps with cacheExpirationInDays := 0 }

/-- A concrete, fully-populated runner configuration used by witnesses and
counterexamples. -/
def sampleRunnerConfiguration : RunnerConfiguration :=
  { name := some "runner-one"
    token := some "glrt-direct"
    url := some "https://gitlab.com"
    executor := some "docker+machine"
    environment := some ["DOCKER_DRIVER=overlay2"]
    docker := some "docker:19.03.12"
    machine := some ⟨some ⟨some "runner-keypair"⟩⟩
    cache := some "s3" }

/-- Concrete job runner props with a direct token, a generated-name-free
configuration and no key pair. -/
def sampleJobRunnerProps : GitlabRunnerAutoscalingJobRunnerProps :=
  { token := some ⟨"glrt-param"⟩
    configuration := sampleRunnerConfiguration
    instanceType := none
    machineImage := none
    keyPair := none }

/-- Concrete props whose key pair is set while the keypairName machine
option is present but equal to the empty string. -/
def keypairEmptyStringProps : GitlabRunnerAutoscalingJobRunnerProps :=
  { sampleJobRunnerProps with
    configuration := { sampleRunnerConfiguration with machine := some ⟨some ⟨some ""⟩⟩ }
    keyPair := some "AnyKeyPairSecret" }

/-- Concrete props in which both token sources resolve to the empty
string. -/
def emptyTokenProps : GitlabRunnerAutoscalingJobRunnerProps :=
  { sampleJobRunnerProps with
    token := some ⟨""⟩
    configuration := { sampleRunnerConfiguration with token := some "" } }

/-- Concrete props whose direct configuration token is the empty string
while the parameter holds a non-empty value. -/
def emptyDirectTokenProps : GitlabRunnerAutoscalingJobRunnerProps :=
  { sampleJobRunnerProps with
    configuration := { sampleRunnerConfiguration with token := some "" } }

/-- Concrete props with no direct configuration token, so the parameter
value is consulted. -/
def paramTokenProps : GitlabRunnerAutoscalingJobRunnerProps :=
  { sampleJobRunnerProps with
    configuration := { sampleRunnerConfiguration with token := none } }

/-- Concrete props supplying an explicit instance type and machine image. -/
def suppliedTypeProps : GitlabRunnerAutoscalingJobRunnerProps :=
  { sampleJobRunnerProps with
    instanceType := some (InstanceType.of InstanceClass.m5 InstanceSize.large)
    machineImage := some (MachineImage.supplied "ami-0123") }

/-- A diagnostic list holding a single warning, for the generation gate. -/
def sampleWarningDiags : List Diagnostic :=
  [⟨Severity.warning, "deprecated field"⟩]

/-- Two strings whose first k characters differ are different. -/
theorem ne_of_data_take_ne (s t : String) (k : Nat)
    (h : s.data.take k ≠ t.data.take k) : s ≠ t :=
  fun e => h (by rw [e])

/-- Taking at most the length of the left part of an appended string reads
only the left part. -/
theorem data_take_append (a x : String) (k : Nat) (hk : k ≤ a.data.length) :
    (a ++ x).data.take k = a.data.take k := by
  rw [String.data_append]
  exact List.take_append_of_le_length hk

/-- No fixed machine-options entry equals either spot directive: the first
fourteen characters of every fixed entry differ from those of both
directive texts, whatever the interpolated field values are. -/
theorem fixedEntries_ne_directives (p : GitlabRunnerStackProps) :
    ∀ e ∈ machineOptionsFixedEntries p,
      e ≠ "amazonec2-request-spot-instance=true"
      ∧ e ≠ "amazonec2-spot-price=" ++ p.gitlabRunnerSpotInstancePrice := by
  intro e he
  simp only [machineOptionsFixedEntries, List.mem_cons, List.not_mem_nil, or_false] at he
  rcases he with rfl | rfl | rfl | rfl | rfl | rfl | rfl | rfl
  all_goals constructor
  all_goals first
    | decide
    | (apply ne_of_data_take_ne _ _ 14
       repeat rw [data_take_append _ _ 14 (by decide)]
       decide)

/-- The spot-price directive is never the empty string. -/
theorem spotPriceDirective_ne_empty (w : String) :
    "amazonec2-spot-price=" ++ w ≠ "" := by
  apply ne_of_data_take_ne _ _ 1
  rw [data_take_append _ _ 1 (by decide)]
  decide

/-- C4: for every stack props, the rendered machine-options list of the
bootstrap configuration document contains the spot-request directive and
the spot-price directive exactly when the spot-instance flag is enabled;
when the flag is disabled the machine-options block renders as the fixed
entries alone: the two conditional slots contribute only whitespace, so
neither directive text, nor an empty entry, nor a false entry appears. -/
theorem spot_directives_iff_enabled (p : GitlabRunnerStackProps) :
    ("amazonec2-request-spot-instance=true" ∈ machineOptionsItems p
      ↔ p.gitlabRunnerSpotInstance = true)
    ∧ (("amazonec2-spot-price=" ++ p.gitlabRunnerSpotInstancePrice) ∈ machineOptionsItems p
      ↔ p.gitlabRunnerSpotInstance = true)
    ∧ (p.gitlabRunnerSpotInstance = false →
      machineOptionsBlock p = machineOptionsBlockNoSpot p) := by
  refine ⟨⟨?_, ?_⟩, ⟨?_, ?_⟩, ?_⟩
  · intro hmem
    cases hspot : p.gitlabRunnerSpotInstance with
    | true => rfl
    | false =>
      exfalso
      simp only [machineOptionsItems, List.mem_append, List.mem_cons, List.not_mem_nil,
        or_false, spotRequestSlot, spotPriceSlot, hspot, if_neg Bool.false_ne_true] at hmem
      rcases hmem with hmem | hmem | hmem
      · exact (fixedEntries_ne_directives p _ hmem).1 rfl
      · exact absurd hmem (by decide)
      · exact absurd hmem (by decide)
  · intro hspot
    apply List.mem_append_right
    simp [spotRequestSlot, hspot]
  · intro hmem
    cases hspot : p.gitlabRunnerSpotInstance with
    | true => rfl
    | false =>
      exfalso
      simp only [machineOptionsItems, List.mem_append, List.mem_cons, List.not_mem_nil,
        or_false, spotRequestSlot, spotPriceSlot, hspot, if_neg Bool.false_ne_true] at hmem
      rcases hmem with hmem | hmem | hmem
      · exact (fixedEntries_ne_directives p _ hmem).2 rfl
      · exact spotPriceDirective_ne_empty _ hmem
      · exact spotPriceDirective_ne_empty _ hmem
  · intro hspot
    apply List.mem_append_right
    simp [spotPriceSlot, hspot]
  · intro hspot
    simp [machineOptionsBlock, machineOptionsBlockNoSpot, spotRequestSlot, spotPriceSlot, hspot]

/-- C4 witness: at a concrete props with the flag enabled the spot-request
directive is in the machine-options list, and at a concrete props with the
flag disabled the block renders as the fixed entries alone. -/
theorem spot_directives_iff_enabled_witness :
    "amazonec2-request-spot-instance=true" ∈ machineOptionsItems sampleStackProps
    ∧ machineOptionsBlock sampleStackPropsNoSpot = machineOptionsBlockNoSpot sampleStackPropsNoSpot :=
  ⟨(spot_directives_iff_enabled sampleStackProps).1.mpr rfl,
   (spot_directives_iff_enabled sampleStackPropsNoSpot).2.2 rfl⟩

set_option maxRecDepth 4096 in
/-- C8 counterexample: two stack props equal except for the off-peak
timezone, with equal off-peak idle count and idle time, render different
bootstrap documents, so idle count and idle time are not the only off-peak
values that vary with the input. -/
theorem offPeak_timezone_varies_counterexample :
    sampleStackPropsBerlinTz = { sampleStackProps with gitlabOffPeakTimezone := "Europe/Berlin" }
    ∧ sampleStackPropsBerlinTz.gitlabOffPeakIdleCount = sampleStackProps.gitlabOffPeakIdleCount
    ∧ sampleStackPropsBerlinTz.gitlabOffPeakIdleTime = sampleStackProps.gitlabOffPeakIdleTime
    ∧ configToml sampleStackPropsBerlinTz ≠ configToml sampleStackProps := by
  refine ⟨rfl, rfl, rfl, ?_⟩
  decide

/-- C8 (amended): the off-peak period list of the bootstrap document is the
fixed two-entry schedule (weekday hours 0-8 and 18-23 Monday to Friday and
all day Saturday and Sunday) for every input, and among the off-peak values
of the document only the timezone, the idle count and the idle time vary
with the input: two props agreeing on those three fields render the same
off-peak section. -/
theorem offPeak_schedule_fixed (p q : GitlabRunnerStackProps)
    (htz : p.gitlabOffPeakTimezone = q.gitlabOffPeakTimezone)
    (hcount : p.gitlabOffPeakIdleCount = q.gitlabOffPeakIdleCount)
    (htime : p.gitlabOffPeakIdleTime = q.gitlabOffPeakIdleTime) :
    offPeakPeriodsLine
      = "OffPeakPeriods = [\"* * 0-8,18-23 * * mon-fri *\", \"* * * * * sat,sun *\"]"
    ∧ offPeakSection p = offPeakSection q
    ∧ configToml p = configTomlPreOffPeak p ++ offPeakSection p := by
  refine ⟨by decide, ?_, rfl⟩
  simp [offPeakSection, htz, hcount, htime]

/-- C8 witness: the off-peak sections of two concrete props that agree on
the timezone and both idle fields but differ elsewhere coincide. -/
theorem offPeak_schedule_fixed_witness :
    offPeakPeriodsLine
      = "OffPeakPeriods = [\"* * 0-8,18-23 * * mon-fri *\", \"* * * * * sat,sun *\"]"
    ∧ offPeakSection sampleStackProps = offPeakSection sampleStackPropsNoSpot
    ∧ configToml sampleStackProps
      = configTomlPreOffPeak sampleStackProps ++ offPeakSection sampleStackProps :=
  offPeak_schedule_fixed sampleStackProps sampleStackPropsNoSpot rfl rfl rfl

/-- C10: the bootstrap document does not depend on gitlabMaxConcurrentBuilds:
changing only that field leaves the rendered document unchanged, and both
the global concurrent line and the per-runner MaxBuilds line are rendered
from gitlabMaxBuilds. -/
theorem maxConcurrent_not_rendered (p : GitlabRunnerStackProps) (v : String) :
    configToml { p with gitlabMaxConcurrentBuilds := v } = configToml p
    ∧ concurrentLine p = "concurrent = " ++ p.gitlabMaxBuilds
    ∧ maxBuildsLine p = "MaxBuilds = " ++ p.gitlabMaxBuilds :=
  ⟨rfl, rfl, rfl⟩

/-- C3: the source computes the lifecycle enabled flag as
cacheExpirationInDays === 0, so at the failing input 0 the expiry rule is
enabled and at a positive count such as 30 it is disabled, contrary to the
claim and to the comment in the source directly above the computation. -/
theorem cache_lifecycle_inverted :
    lifeCycleRuleEnabled sampleStackPropsNoExpiry.cacheExpirationInDays = true
    ∧ lifeCycleRuleEnabled sampleStackProps.cacheExpirationInDays = false
    ∧ (cacheBucketLifecycleRules sampleStackPropsNoExpiry 19600).map LifecycleRule.enabled = [true]
    ∧ (cacheBucketLifecycleRules sampleStackProps 19600).map LifecycleRule.enabled = [false] := by
  decide

/-- C5: artifact generation fails fast exactly when an error-severity
diagnostic exists for the input configuration, producing no document and no
service directives; with only warning-severity diagnostics it proceeds and
emits the rendered bootstrap document together with the service
directives. -/
theorem generator_fail_fast (diags : List Diagnostic) (p : GitlabRunnerStackProps) :
    (generateArtifacts diags p = none ↔ ∃ d ∈ diags, d.severity = Severity.error)
    ∧ ((∀ d ∈ diags, d.severity = Severity.warning) →
      generateArtifacts diags p = some (configToml p, serviceDirectives)) := by
  have hval : generateArtifacts diags p = none
      ↔ diags.any (fun d => d.severity == Severity.error) = true := by
    unfold generateArtifacts
    split
    · simp_all
    · simp_all
  constructor
  · rw [hval, List.any_eq_true]
    simp only [beq_iff_eq]
  · intro hall
    unfold generateArtifacts
    rw [if_neg]
    intro hany
    rw [List.any_eq_true] at hany
    obtain ⟨d, hd, hbeq⟩ := hany
    have hw := hall d hd
    rw [beq_iff_eq, hw] at hbeq
    exact Severity.noConfusion hbeq

/-- C5 witness: with a single warning diagnostic, generation proceeds at a
concrete props and emits the document and the service directives. -/
theorem generator_fail_fast_witness :
    generateArtifacts sampleWarningDiags sampleStackProps
      = some (configToml sampleStackProps, serviceDirectives) :=
  (generator_fail_fast sampleWarningDiags sampleStackProps).2 (by decide)

/-- C1 counterexample: at concrete props whose keyPair is set and whose
keypairName machine option is set to the empty string, the constructor
still reports the error diagnostic, so a set keypairName does not always
suppress it. -/
theorem keypair_empty_string_counterexample :
    keypairEmptyStringProps.keyPair.isSome = true
    ∧ ((keypairEmptyStringProps.configuration.machine.bind MachineConfig.machineOptions).bind
        MachineOptionsConfig.keypairName) = some ""
    ∧ (constructJobRunner keypairEmptyStringProps 0 0).annotations
        = [⟨Severity.error, keyPairErrorMessage⟩] := by
  decide

/-- C1 (amended): when keyPair is set and the keypairName machine option is
unset or set to the empty string, resolution reports exactly one
error-severity diagnostic (the key pair without matching machine option
message); when keyPair is unset or keypairName is set to a non-empty
string, no diagnostic is reported; the constructor never throws, being a
total function. -/
theorem keypair_diagnostic_iff (props : GitlabRunnerAutoscalingJobRunnerProps)
    (timeMs rand : Nat) :
    ((props.keyPair.isSome && keypairNameFalsy props.configuration) = true →
      (constructJobRunner props timeMs rand).annotations
        = [⟨Severity.error, keyPairErrorMessage⟩])
    ∧ ((props.keyPair.isSome && keypairNameFalsy props.configuration) = false →
      (constructJobRunner props timeMs rand).annotations = []) := by
  constructor <;> intro h <;> simp [constructJobRunner, h]

/-- C1 witness: the error-diagnostic case at the concrete props with an
empty keypairName, and the no-diagnostic case at the concrete props with a
matching keypairName and no keyPair. -/
theorem keypair_diagnostic_iff_witness :
    (constructJobRunner keypairEmptyStringProps 0 0).annotations
      = [⟨Severity.error, keyPairErrorMessage⟩]
    ∧ (constructJobRunner sampleJobRunnerProps 0 0).annotations = [] :=
  ⟨(keypair_diagnostic_iff keypairEmptyStringProps 0 0).1 (by decide),
   (keypair_diagnostic_iff sampleJobRunnerProps 0 0).2 (by decide)⟩

/-- C2 counterexample: at concrete props where both the direct
configuration token and the parameter value are the empty string,
resolution succeeds: the resolved configuration carries the empty token and
no diagnostic is reported, so resolution does not fail on an unresolved
token. -/
theorem empty_token_no_failure_counterexample :
    emptyTokenProps.configuration.token = some ""
    ∧ Option.map StringParameter.stringValue emptyTokenProps.token = some ""
    ∧ (constructJobRunner emptyTokenProps 0 0).configuration.token = some ""
    ∧ (constructJobRunner emptyTokenProps 0 0).annotations = [] := by
  decide

/-- C2 (amended): configuration resolution never fails on the token: it
always produces a resolved configuration whose token is the direct
configuration token whenever that is defined (even when empty) and the
parameter value otherwise, and every diagnostic it can report is the key
pair one, so no error is raised for an empty or absent token. -/
theorem token_resolution_never_fails (props : GitlabRunnerAutoscalingJobRunnerProps)
    (timeMs rand : Nat) :
    (props.configuration.token.isSome = true →
      (constructJobRunner props timeMs rand).configuration.token = props.configuration.token)
    ∧ (props.configuration.token = none →
      (constructJobRunner props timeMs rand).configuration.token
        = Option.map StringParameter.stringValue props.token)
    ∧ ((constructJobRunner props timeMs rand).annotations.all
        (fun d => d.message == keyPairErrorMessage)) = true := by
  refine ⟨?_, ?_, ?_⟩
  · intro h
    obtain ⟨t, ht⟩ := Option.isSome_iff_exists.mp h
    simp [constructJobRunner, ht]
  · intro h
    simp [constructJobRunner, h]
  · by_cases h : (props.keyPair.isSome && keypairNameFalsy props.configuration) = true
    · simp [constructJobRunner, h]
    · simp only [Bool.not_eq_true] at h
      simp [constructJobRunner, h]

/-- C2 witness: at concrete props with both sources empty, resolution
still yields a configuration (with the empty token) and only key-pair
diagnostics exist (here none). -/
theorem token_resolution_never_fails_witness :
    (constructJobRunner emptyTokenProps 0 0).configuration.token = some ""
    ∧ ((constructJobRunner emptyTokenProps 0 0).annotations.all
        (fun d => d.message == keyPairErrorMessage)) = true := by
  obtain ⟨h1, _, h3⟩ := token_resolution_never_fails emptyTokenProps 0 0
  exact ⟨(h1 (by decide)).trans (by decide), h3⟩

/-- C9: token source precedence: whenever the direct configuration token is
defined, including as the empty string, the resolved token equals it and
the parameter is not consulted; the parameter value is used exactly when
the direct token is null or undefined. -/
theorem token_source_precedence (props : GitlabRunnerAutoscalingJobRunnerProps)
    (timeMs rand : Nat) (s : String) :
    (props.configuration.token = some s →
      (constructJobRunner props timeMs rand).configuration.token = some s)
    ∧ (props.configuration.token = none →
      (constructJobRunner props timeMs rand).configuration.token
        = Option.map StringParameter.stringValue props.token) := by
  constructor <;> intro h <;> simp [constructJobRunner, h]

/-- C9 witness: with a defined empty direct token the resolved token is the
empty string although the parameter holds a non-empty value, and with no
direct token the parameter value is used. -/
theorem token_source_precedence_witness :
    (constructJobRunner emptyDirectTokenProps 0 0).configuration.token = some ""
    ∧ (constructJobRunner paramTokenProps 0 0).configuration.token = some "glrt-param" := by
  constructor
  · exact (token_source_precedence emptyDirectTokenProps 0 0 "").1 rfl
  · have h := (token_source_precedence paramTokenProps 0 0 "").2 rfl
    rw [h]
    rfl

/-- C6: resolution is a pure function of its input (the embedded
constructor never mutates the props value) and the resolved configuration
agrees with the input on every field other than token and name; token and
name are replaced only when the input value is absent, a supplied name or
token passing through unchanged. -/
theorem resolve_frame (props : GitlabRunnerAutoscalingJobRunnerProps)
    (timeMs rand : Nat) :
    (constructJobRunner props timeMs rand).configuration.url = props.configuration.url
    ∧ (constructJobRunner props timeMs rand).configuration.executor
        = props.configuration.executor
    ∧ (constructJobRunner props timeMs rand).configuration.environment
        = props.configuration.environment
    ∧ (constructJobRunner props timeMs rand).configuration.docker
        = props.configuration.docker
    ∧ (constructJobRunner props timeMs rand).configuration.machine
        = props.configuration.machine
    ∧ (constructJobRunner props timeMs rand).configuration.cache
        = props.configuration.cache
    ∧ (∀ s, props.configuration.token = some s →
        (constructJobRunner props timeMs rand).configuration.token = some s)
    ∧ (∀ s, props.configuration.name = some s →
        (constructJobRunner props timeMs rand).configuration.name = some s)
    ∧ (props.configuration.name = none →
        (constructJobRunner props timeMs rand).configuration.name
          = some (generateUniqueName timeMs rand))
    ∧ (props.configuration.token = none →
        (constructJobRunner props timeMs rand).configuration.token
          = Option.map StringParameter.stringValue props.token) := by
  refine ⟨rfl, rfl, rfl, rfl, rfl, rfl, ?_, ?_, ?_, ?_⟩
  · intro s h
    simp [constructJobRunner, h]
  · intro s h
    simp [constructJobRunner, h]
  · intro h
    simp [constructJobRunner, h]
  · intro h
    simp [constructJobRunner, h]

/-- C6 witness: at concrete props the machine block passes through
unchanged and the supplied token and name are preserved. -/
theorem resolve_frame_witness :
    (constructJobRunner sampleJobRunnerProps 0 0).configuration.machine
      = sampleJobRunnerProps.configuration.machine
    ∧ (constructJobRunner sampleJobRunnerProps 0 0).configuration.token = some "glrt-direct"
    ∧ (constructJobRunner sampleJobRunnerProps 0 0).configuration.name = some "runner-one" := by
  obtain ⟨_, _, _, _, h5, _, h7, h8, _, _⟩ := resolve_frame sampleJobRunnerProps 0 0
  exact ⟨h5, h7 "glrt-direct" rfl, h8 "runner-one" rfl⟩

/-- C7: with instanceType unset the resolved instance type is
InstanceType.of(T3, MICRO), the smallest general-purpose class and size in
the spec terminology; with machineImage unset the image is the generic
Linux image of the fixed lookup, whose filter requires architecture
x86_64, EBS root device, HVM virtualization and the available state and
which takes the most recent match; supplied values for either field are
used as-is. -/
theorem defaults_instance_and_image (props : GitlabRunnerAutoscalingJobRunnerProps)
    (timeMs rand : Nat) :
    (props.instanceType = none →
      (constructJobRunner props timeMs rand).instanceType
        = InstanceType.of InstanceClass.t3 InstanceSize.micro)
    ∧ (∀ it, props.instanceType = some it →
      (constructJobRunner props timeMs rand).instanceType = it)
    ∧ (props.machineImage = none →
      (constructJobRunner props timeMs rand).machineImage
        = MachineImage.genericLinuxLookup defaultMachineImageLookup)
    ∧ (∀ mi, props.machineImage = some mi →
      (constructJobRunner props timeMs rand).machineImage = mi)
    ∧ ("architecture", ["x86_64"]) ∈ defaultMachineImageLookup.filters
    ∧ ("root-device-type", ["ebs"]) ∈ defaultMachineImageLookup.filters
    ∧ ("virtualization-type", ["hvm"]) ∈ defaultMachineImageLookup.filters
    ∧ ("state", ["available"]) ∈ defaultMachineImageLookup.filters
    ∧ defaultMachineImageLookup.mostRecent = true := by
  refine ⟨?_, ?_, ?_, ?_, by decide, by decide, by decide, by decide, rfl⟩
  · intro h
    simp [constructJobRunner, h]
  · intro it h
    simp [constructJobRunner, h]
  · intro h
    simp [constructJobRunner, h]
  · intro mi h
    simp [constructJobRunner, h]

/-- C7 witness: at concrete props without instanceType and machineImage the
defaults apply, and at concrete props supplying both they are used
as-is. -/
theorem defaults_instance_and_image_witness :
    (constructJobRunner sampleJobRunnerProps 0 0).instanceType
      = InstanceType.of InstanceClass.t3 InstanceSize.micro
    ∧ (constructJobRunner sampleJobRunnerProps 0 0).machineImage
      = MachineImage.genericLinuxLookup defaultMachineImageLookup
    ∧ (constructJobRunner suppliedTypeProps 0 0).instanceType
      = InstanceType.of InstanceClass.m5 InstanceSize.large
    ∧ (constructJobRunner suppliedTypeProps 0 0).machineImage
      = MachineImage.supplied "ami-0123" := by
  obtain ⟨h1, _, h3, _, _⟩ := defaults_instance_and_image sampleJobRunnerProps 0 0
  obtain ⟨_, g2, _, g4, _⟩ := defaults_instance_and_image suppliedTypeProps 0 0
  exact ⟨h1 rfl, h3 rfl, g2 _ rfl, g4 _ rfl⟩
